import Mathlib

/-!
Verification of the RVProspector discovery–enrichment–classification–dedup
pipeline against its natural-language specification.

The Python sources are shallowly embedded as executable Lean definitions:

* `src/src/rvprospector/core.py` — site classifier (`extract_pad_count`,
  `check_booking_and_pads`), qualification rule (`generate_daily` line 460),
  result merger (`merge_preserving_notes`), history ledger
  (`append_history_entry`), search-call error behaviour (`google_text_search`).
* `src/web/app.py` — dedup gate of `_generate_for_user` (including
  `_looks_like_rv_or_mhp`), the web planner's per-query error recovery.
* `src/web/db.py` — daily-quota computation (`slice_by_trial`,
  `get_leads_used_today`).

Network and filesystem effects are made explicit: a fetched subpage is
abstracted to the data the classifier reads from it (the first
booking-keyword match and the ordered list of numbers matched by the
pad-count patterns), a search call is abstracted to its outcome, and the
pandas dataframes are lists of string-valued records.
-/

namespace RVProspector

/-- Minimum advertised pad capacity for a candidate to qualify
(`core.py`: `PAD_MIN = 40`). -/
def PAD_MIN : Nat := 40

/-- Daily demo lead limit (`web/db.py`: `DEMO_LIMIT = 10`). -/
def DEMO_LIMIT : Int := 10

/-- Abstraction of one successfully fetched subpage, holding exactly what
`check_booking_and_pads` reads from the raw markup:
`bookingMatch` is the first booking-keyword match of `BOOKING_RE.search`
(`""` when the page has none — the keywords themselves are non-empty), and
`padMatches` is the sequence of numbers produced by the `PAD_RES` patterns in
match order (each match of the two patterns contributes its single digit
group; pattern-1 matches precede pattern-2 matches, as in the Python loop). -/
structure Page where
  bookingMatch : String
  padMatches : List Nat
deriving DecidableEq, Repr

/-- `core.py` `extract_pad_count` (lines 254–265): walk the pattern matches in
order and return the first matched number `n` with `25 <= n <= 2000`; if no
match is in range, return `None`. -/
def extract_pad_count (nums : List Nat) : Option Nat :=
  nums.find? (fun n => decide (25 ≤ n) && decide (n ≤ 2000))

/-- The pad-count accumulation step of `check_booking_and_pads`
(`if pc and (pad_found is None or pc > pad_found): pad_found = pc`).
`extract_pad_count` only ever returns values `≥ 25`, so Python's truthiness
test on `pc` coincides with `isSome` on the embedding's inputs. -/
def optMaxPad (pad_found : Option Nat) (pc : Option Nat) : Option Nat :=
  match pc with
  | none => pad_found
  | some c =>
    match pad_found with
    | none => some c
    | some old => if c > old then some c else some old

/-- The subpage loop of `check_booking_and_pads` (lines 270–292).
Each element of the list is one attempted subpage fetch, in
`discover_candidate_pages` order: `none` models a failed fetch (HTTP status
`>= 400`, empty body, or a raised `RequestException` — all `continue`), and
`some p` a successful one.  The wall-clock budget break is reflected in the
list of attempts passed in (pages never fetched are simply absent).
State: `bh` is `booking_hit`, `pf` is `pad_found`. -/
def cbp_go : List (Option Page) → String → Option Nat → Bool × String × Option Nat
  | [], bh, pf => (decide (bh = ""), bh, pf)
  | none :: rest, bh, pf => cbp_go rest bh pf
  | some p :: rest, bh, pf =>
    let bh' := if bh = "" then p.bookingMatch else bh
    let pf' := optMaxPad pf (extract_pad_count p.padMatches)
    if bh' ≠ "" ∧ pf'.isSome then (decide (bh' = ""), bh', pf')
    else cbp_go rest bh' pf'

/-- `core.py` `check_booking_and_pads` (lines 267–292): returns
`(no_booking, booking_hit, pad_count)`.  An absent website (`if not website`)
is modelled as the empty string and short-circuits to `(True, "", None)`. -/
def check_booking_and_pads (website : String) (fetched : List (Option Page)) :
    Bool × String × Option Nat :=
  if website = "" then (true, "", none)
  else cbp_go fetched "" none

/-- `core.py` `generate_daily` line 460:
`qualifies = no_booking and (pad_count is None or pad_count >= PAD_MIN)`.
The same test appears in `web/app.py` `eval_place` lines 376–377. -/
def qualifiesB (no_booking : Bool) (pad_count : Option Nat) : Bool :=
  no_booking &&
    (match pad_count with
     | none => true
     | some n => decide (PAD_MIN ≤ n))

/-- The spec's `has_booking_system` field of a Candidate: `core.py` sets
`booking_detected = False if not booking_hit else True`, i.e. the booking
keyword match is non-empty. -/
def has_booking_system (booking_hit : String) : Bool := !(booking_hit == "")

/-- The first component of the classifier result is always the test
`booking_hit == ""` on its second component. -/
theorem cbp_go_fst (l : List (Option Page)) (bh : String) (pf : Option Nat) :
    (cbp_go l bh pf).1 = decide ((cbp_go l bh pf).2.1 = "") := by
  induction l generalizing bh pf with
  | nil => rfl
  | cons o rest ih =>
    cases o with
    | none => exact ih bh pf
    | some p =>
      simp only [cbp_go]
      by_cases hbr : ((if bh = "" then p.bookingMatch else bh) ≠ "" ∧
          (optMaxPad pf (extract_pad_count p.padMatches)).isSome = true)
      · simp only [if_pos hbr]
      · simp only [if_neg hbr]
        exact ih _ _

theorem check_booking_and_pads_fst (w : String) (fetched : List (Option Page)) :
    (check_booking_and_pads w fetched).1 =
      decide ((check_booking_and_pads w fetched).2.1 = "") := by
  unfold check_booking_and_pads
  split
  · rfl
  · exact cbp_go_fst _ _ _

/-- C1: for every evaluated candidate (i.e. every classifier output), the
candidate qualifies iff `has_booking_system` is false and the pad count is
unknown or at least `PAD_MIN = 40`. -/
theorem qualifies_iff_no_booking_and_pads (w : String) (fetched : List (Option Page)) :
    qualifiesB (check_booking_and_pads w fetched).1 (check_booking_and_pads w fetched).2.2 = true ↔
      (has_booking_system (check_booking_and_pads w fetched).2.1 = false ∧
        ((check_booking_and_pads w fetched).2.2 = none ∨
          ∃ n, (check_booking_and_pads w fetched).2.2 = some n ∧ PAD_MIN ≤ n)) := by
  have hfst := check_booking_and_pads_fst w fetched
  rcases hcb : check_booking_and_pads w fetched with ⟨nb, kw, pf⟩
  rw [hcb] at hfst
  simp only at hfst
  rw [hfst]; clear hfst
  cases pf with
  | none => simp [qualifiesB, has_booking_system]
  | some n =>
    simp only [qualifiesB, has_booking_system]
    constructor
    · intro h
      simp only [Bool.and_eq_true, decide_eq_true_eq] at h
      refine ⟨by simp [h.1], Or.inr ⟨n, rfl, h.2⟩⟩
    · rintro ⟨h1, h2⟩
      simp only [Bool.not_eq_eq_eq_not, Bool.not_false, beq_iff_eq] at h1
      rcases h2 with h2 | ⟨m, hm, hmn⟩
      · exact absurd h2 (by simp)
      · simp only [Option.some.injEq] at hm
        subst hm
        simp [h1, hmn]

/-- C6: any number reported by pad-count extraction lies in `[25, 2000]`. -/
theorem extract_pad_count_in_range (nums : List Nat) (n : Nat)
    (h : extract_pad_count nums = some n) : 25 ≤ n ∧ n ≤ 2000 := by
  have hp := List.find?_some h
  simpa using hp

/-- Witness for C6 at a concrete input: the out-of-range matches 3 and 5000
are skipped and 150 is reported, which is in range. -/
theorem extract_pad_count_in_range_witness :
    extract_pad_count [3, 5000, 150, 30] = some 150 ∧ 25 ≤ 150 ∧ 150 ≤ 2000 :=
  ⟨by decide, extract_pad_count_in_range [3, 5000, 150, 30] 150 (by decide)⟩

/-- C10: an absent website classifies as `(no booking = true, "", unknown)`,
and that classification qualifies under the core rule. -/
theorem empty_website_qualifies (fetched : List (Option Page)) :
    check_booking_and_pads "" fetched = (true, "", none) ∧
      qualifiesB true none = true :=
  ⟨rfl, rfl⟩

/-- The subpages actually processed by the `check_booking_and_pads` loop:
failed fetches are skipped, and the loop stops after the page on which both a
booking keyword and a pad count have been found. -/
def cbp_processed : List (Option Page) → String → Option Nat → List Page
  | [], _, _ => []
  | none :: rest, bh, pf => cbp_processed rest bh pf
  | some p :: rest, bh, pf =>
    let bh' := if bh = "" then p.bookingMatch else bh
    let pf' := optMaxPad pf (extract_pad_count p.padMatches)
    if bh' ≠ "" ∧ pf'.isSome then [p]
    else p :: cbp_processed rest bh' pf'

/-- Modelled from the spec's words, for comparison with the code: "Across all
subpages, the maximum in-range number found is reported as the capacity
estimate" — the maximum over every in-range number matched on any fetched
subpage. -/
def spec_max_in_range (fetched : List (Option Page)) : Option Nat :=
  (((fetched.filterMap id).foldr (fun p acc => p.padMatches ++ acc) []).filter
    (fun n => decide (25 ≤ n) && decide (n ≤ 2000))).max?

/-- C5 counterexample: a single fetched page whose markup matches "30 sites"
before "100 sites" has in-range matches 30 and 100, but the classifier
reports 30 — `extract_pad_count` returns the first in-range match of a page,
not its maximum, so the reported pad count is not the maximum in-range number
found across the fetched subpages. -/
theorem pad_count_not_max_counterexample :
    check_booking_and_pads "http://example.com" [some ⟨"", [30, 100]⟩] =
      (true, "", some 30) ∧
    spec_max_in_range [some ⟨"", [30, 100]⟩] = some 100 ∧
    (30 : Nat) ≠ 100 :=
  ⟨by decide, by decide, by decide⟩

/-- The pad-count component computed by the classifier loop is the fold of
the per-page accumulation step over the first-in-range match of each
processed page. -/
theorem cbp_go_pad (l : List (Option Page)) (bh : String) (pf : Option Nat) :
    (cbp_go l bh pf).2.2 =
      ((cbp_processed l bh pf).map (fun p => extract_pad_count p.padMatches)).foldl
        optMaxPad pf := by
  induction l generalizing bh pf with
  | nil => rfl
  | cons o rest ih =>
    cases o with
    | none => exact ih bh pf
    | some p =>
      simp only [cbp_go, cbp_processed]
      by_cases hbr : ((if bh = "" then p.bookingMatch else bh) ≠ "" ∧
          (optMaxPad pf (extract_pad_count p.padMatches)).isSome = true)
      · simp only [if_pos hbr, List.map_cons, List.map_nil, List.foldl_cons, List.foldl_nil]
      · simp only [if_neg hbr, List.map_cons, List.foldl_cons]
        exact ih _ _

/-- Folding the accumulation step over a list of absent pad counts yields an
absent pad count. -/
theorem foldl_optMaxPad_none (xs : List (Option Nat)) (h : ∀ x ∈ xs, x = none) :
    xs.foldl optMaxPad none = none := by
  induction xs with
  | nil => rfl
  | cons x t ih =>
    have hx := h x (by simp)
    subst hx
    simpa [optMaxPad] using ih (fun y hy => h y (by simp [hy]))

/-- C5 amended: for a non-empty website, the reported pad count is the
combination (strict-greater update, i.e. maximum) over the processed
subpages of each page's FIRST in-range matched number — not of all in-range
numbers — and it is unknown when no processed page has an in-range match. -/
theorem pad_count_fold_of_first_matches (w : String) (fetched : List (Option Page))
    (hw : w ≠ "") :
    (check_booking_and_pads w fetched).2.2 =
      ((cbp_processed fetched "" none).map (fun p => extract_pad_count p.padMatches)).foldl
        optMaxPad none ∧
    ((∀ p ∈ cbp_processed fetched "" none, extract_pad_count p.padMatches = none) →
      (check_booking_and_pads w fetched).2.2 = none) := by
  have h1 : check_booking_and_pads w fetched = cbp_go fetched "" none := by
    simp [check_booking_and_pads, hw]
  refine ⟨by rw [h1]; exact cbp_go_pad _ _ _, ?_⟩
  intro hall
  rw [h1, cbp_go_pad]
  refine foldl_optMaxPad_none _ ?_
  intro x hx
  rcases List.mem_map.mp hx with ⟨p, hp, hpx⟩
  rw [← hpx]
  exact hall p hp

/-- Witness for C5's amended theorem at a concrete input: two successful
pages and one failed fetch; the result is the fold over first-in-range
matches (here 30 then 60, yielding 60). -/
theorem pad_count_fold_witness :
    (check_booking_and_pads "http://a" [some ⟨"", [30, 100]⟩, none, some ⟨"", [7, 60]⟩]).2.2 =
      ((cbp_processed [some ⟨"", [30, 100]⟩, none, some ⟨"", [7, 60]⟩] "" none).map
        (fun p => extract_pad_count p.padMatches)).foldl optMaxPad none ∧
    (check_booking_and_pads "http://a" [some ⟨"", [30, 100]⟩, none, some ⟨"", [7, 60]⟩]).2.2 =
      some 60 :=
  ⟨(pad_count_fold_of_first_matches "http://a"
      [some ⟨"", [30, 100]⟩, none, some ⟨"", [7, 60]⟩] (by decide)).1, by decide⟩

/-- `web/db.py` `get_leads_used_today` (lines 85–95): counts this caller's
history rows with `created_at >= {today}T00:00:00Z`.  A history row is
abstracted to its creation timestamp (seconds); `dayStart` is the start of
the current UTC day.  Note the query has no upper bound on the timestamp. -/
def get_leads_used_today (history : List Nat) (dayStart : Nat) : Nat :=
  (history.filter (fun t => decide (dayStart ≤ t))).length

/-- Modelled from the spec's words, for comparison with the code: the number
of history entries timestamped within the current UTC day
(`dayStart ≤ t < dayEnd`). -/
def usedWithinDay (history : List Nat) (dayStart dayEnd : Nat) : Nat :=
  (history.filter (fun t => decide (dayStart ≤ t) && decide (t < dayEnd))).length

/-- `web/db.py` `slice_by_trial` (lines 97–107): returns
`(allowed_today, is_unlocked, remaining_today)`.  The `is_unlocked` database
lookup is passed in as the boolean `unlocked`. -/
def slice_by_trial (unlocked : Bool) (history : List Nat) (dayStart : Nat)
    (requested : Int) : Int × Bool × Int :=
  if unlocked then (requested, true, -1)
  else
    let used : Int := get_leads_used_today history dayStart
    let remaining := max 0 (DEMO_LIMIT - used)
    (min requested remaining, false, remaining)

/-- C4: an unlimited account is always allowed exactly what it requested,
regardless of history; otherwise, provided no history entry lies beyond the
current day (timestamps are creation times, so none can postdate the query),
the allowance is `max(0, min(requested, daily_limit - used_today))` with
`used_today` the number of entries within the current UTC day. -/
theorem slice_by_trial_allowed_spec (history : List Nat) (dayStart dayEnd : Nat)
    (requested : Int) (hreq : 0 ≤ requested)
    (hhist : ∀ t ∈ history, dayStart ≤ t → t < dayEnd) :
    (slice_by_trial true history dayStart requested).1 = requested ∧
    (slice_by_trial false history dayStart requested).1 =
      max 0 (min requested (DEMO_LIMIT - (usedWithinDay history dayStart dayEnd : Int))) := by
  refine ⟨rfl, ?_⟩
  have hcount : get_leads_used_today history dayStart =
      usedWithinDay history dayStart dayEnd := by
    unfold get_leads_used_today usedWithinDay
    congr 1
    refine List.filter_congr ?_
    intro t ht
    by_cases h : dayStart ≤ t
    · simp [h, hhist t ht h]
    · simp [h]
  simp [slice_by_trial, hcount, DEMO_LIMIT]
  omega

/-- Witness for C4 at the spec's example: daily limit 10, 7 leads used today,
5 requested, not unlimited, yields 3; and the unlimited account gets 5. -/
theorem slice_by_trial_allowed_witness :
    (slice_by_trial true [100, 101, 102, 103, 104, 105, 106] 100 5).1 = 5 ∧
    (slice_by_trial false [100, 101, 102, 103, 104, 105, 106] 100 5).1 = 3 := by
  have h := slice_by_trial_allowed_spec [100, 101, 102, 103, 104, 105, 106] 100 200 5
    (by decide) (by decide)
  exact ⟨h.1, h.2.trans (by decide)⟩

/-- One DailyRow of the authoritative dataset, with the `COMMON_COLS` columns
of `core.py` (lines 111–116) in order.  All values are strings, as in the
dataframes (`astype(str)`). -/
structure Row where
  park_place_id : String
  date_generated : String
  park_name : String
  phone : String
  website : String
  address : String
  city : String
  state : String
  zip : String
  owner_name : String
  owner_phone : String
  owner_email : String
  source : String
  booking_detected : String
  detected_keyword : String
  pad_count : String
  notes : String
  call_status : String
  outcome : String
  follow_up_date : String
deriving DecidableEq, Repr

/-- Per-cell rule of the mask loop of `merge_preserving_notes` for a key
present in both frames: `combine_first` keeps the existing (non-null) value,
then `combined[col].mask(combined[col].eq(""), nw[col])` replaces it by the
new value when it is empty. -/
def keepNE (a b : String) : String := if a = "" then b else a

/-- Per-cell rule of the mask loop for a key present only in the existing
frame: an empty value is masked with the new frame's value at that label,
which is `NaN` (the label is absent from `nw`), and the final `astype(str)`
renders that `NaN` as the string `"nan"` (`fillna("")` runs after `astype`
and therefore does not restore the empty string). -/
def fillNan (a : String) : String := if a = "" then "nan" else a

/-- Merged row for a `park_place_id` present in both the existing and the new
frame: annotation columns (`notes`, `call_status`, `outcome`,
`follow_up_date`, `owner_name`, `owner_phone`, `owner_email` — the
`user_cols` of `core.py` lines 336–337) keep the existing value outright; all
other columns keep the existing value unless it is empty, in which case the
new value is taken. -/
def mergeBoth (x y : Row) : Row :=
  { park_place_id := keepNE x.park_place_id y.park_place_id
    date_generated := keepNE x.date_generated y.date_generated
    park_name := keepNE x.park_name y.park_name
    phone := keepNE x.phone y.phone
    website := keepNE x.website y.website
    address := keepNE x.address y.address
    city := keepNE x.city y.city
    state := keepNE x.state y.state
    zip := keepNE x.zip y.zip
    owner_name := x.owner_name
    owner_phone := x.owner_phone
    owner_email := x.owner_email
    source := keepNE x.source y.source
    booking_detected := keepNE x.booking_detected y.booking_detected
    detected_keyword := keepNE x.detected_keyword y.detected_keyword
    pad_count := keepNE x.pad_count y.pad_count
    notes := x.notes
    call_status := x.call_status
    outcome := x.outcome
    follow_up_date := x.follow_up_date }

/-- Merged row for a `park_place_id` present only in the existing frame:
annotation columns are untouched, while every other empty cell becomes the
string `"nan"` (see `fillNan`). -/
def exOnly (x : Row) : Row :=
  { park_place_id := fillNan x.park_place_id
    date_generated := fillNan x.date_generated
    park_name := fillNan x.park_name
    phone := fillNan x.phone
    website := fillNan x.website
    address := fillNan x.address
    city := fillNan x.city
    state := fillNan x.state
    zip := fillNan x.zip
    owner_name := x.owner_name
    owner_phone := x.owner_phone
    owner_email := x.owner_email
    source := fillNan x.source
    booking_detected := fillNan x.booking_detected
    detected_keyword := fillNan x.detected_keyword
    pad_count := fillNan x.pad_count
    notes := x.notes
    call_status := x.call_status
    outcome := x.outcome
    follow_up_date := x.follow_up_date }

/-- Lookup of the (first) row with the given `park_place_id` — the
`.set_index("park_place_id")` label lookup. -/
def findRow (l : List Row) (pid : String) : Option Row :=
  l.find? (fun r => decide (r.park_place_id = pid))

/-- The `park_place_id` column of a frame. -/
def rowKeys (l : List Row) : List String := l.map Row.park_place_id

/-- The union of the two frames' indices, as produced by `combine_first`.
Pandas returns this union sorted lexicographically; we keep
existing-then-new order instead — a permutation with the same per-key
content, which no claim distinguishes. -/
def unionKeys (E N : List Row) : List String :=
  rowKeys E ++ (rowKeys N).filter (fun k => decide (k ∉ rowKeys E))

/-- The merged row the output carries at index `k`, by the three cases of
`combine_first` + mask (both frames / existing only / new only). -/
def rowFor (E N : List Row) (k : String) : Option Row :=
  match findRow E k, findRow N k with
  | some x, some y => some (mergeBoth x y)
  | some x, none => some (exOnly x)
  | none, some y => some y
  | none, none => none

/-- `core.py` `merge_preserving_notes` (lines 330–343): if the new-row batch
is empty the existing frame is returned unchanged (`if new_df.empty`);
otherwise the frames are joined on `park_place_id` via `combine_first`
followed by the empty-cell mask on non-annotation columns. -/
def merge_preserving_notes (existing newRows : List Row) : List Row :=
  if newRows.isEmpty then existing
  else (unionKeys existing newRows).filterMap (rowFor existing newRows)

theorem keepNE_idem (a b : String) : keepNE (keepNE a b) b = keepNE a b := by
  by_cases h : a = "" <;> simp [keepNE, h]

theorem keepNE_self (a : String) : keepNE a a = a := by
  by_cases h : a = "" <;> simp [keepNE, h]

theorem fillNan_idem (a : String) : fillNan (fillNan a) = fillNan a := by
  by_cases h : a = ""
  · simp only [fillNan, if_pos h]
    rw [if_neg (by decide : ¬("nan" = ""))]
  · simp [fillNan, h]

theorem mergeBoth_mergeBoth (x y : Row) : mergeBoth (mergeBoth x y) y = mergeBoth x y := by
  cases x; cases y; simp [mergeBoth, keepNE_idem]

theorem mergeBoth_self (y : Row) : mergeBoth y y = y := by
  cases y; simp [mergeBoth, keepNE_self]

theorem exOnly_exOnly (x : Row) : exOnly (exOnly x) = exOnly x := by
  cases x; simp [exOnly, fillNan_idem]

theorem findRow_key (l : List Row) (pid : String) (r : Row)
    (h : findRow l pid = some r) : r.park_place_id = pid := by
  have hp := List.find?_some h
  simpa using hp

theorem findRow_isSome_iff (l : List Row) (pid : String) :
    (findRow l pid).isSome ↔ pid ∈ rowKeys l := by
  unfold findRow rowKeys
  rw [List.find?_isSome]
  simp [List.mem_map]

theorem mem_unionKeys (E N : List Row) (k : String) :
    k ∈ unionKeys E N ↔ k ∈ rowKeys E ∨ k ∈ rowKeys N := by
  unfold unionKeys
  rw [List.mem_append]
  constructor
  · rintro (h | h)
    · exact Or.inl h
    · exact Or.inr (List.mem_filter.mp h).1
  · rintro (h | h)
    · exact Or.inl h
    · by_cases hE : k ∈ rowKeys E
      · exact Or.inl hE
      · exact Or.inr (List.mem_filter.mpr ⟨h, by simp [hE]⟩)

/-- With no empty `park_place_id` among the existing rows, every merged row
carries the key it is stored under (the only key-mangling case, `fillNan` on
an empty key of an existing-only row, is excluded). -/
theorem rowFor_key (E N : List Row) (hne : "" ∉ rowKeys E) (k : String) (r : Row)
    (h : rowFor E N k = some r) : r.park_place_id = k := by
  unfold rowFor at h
  cases hE : findRow E k with
  | some x =>
    have hxk := findRow_key E k x hE
    have hkE : k ∈ rowKeys E := by
      rw [← findRow_isSome_iff, hE]; rfl
    have hk0 : k ≠ "" := fun hk => hne (hk ▸ hkE)
    cases hN : findRow N k with
    | some y =>
      rw [hE, hN] at h
      simp only [Option.some.injEq] at h
      subst h
      have hyk := findRow_key N k y hN
      simp [mergeBoth, keepNE, hxk, hyk]
    | none =>
      rw [hE, hN] at h
      simp only [Option.some.injEq] at h
      subst h
      simp [exOnly, fillNan, hxk, hk0]
  | none =>
    cases hN : findRow N k with
    | some y =>
      rw [hE, hN] at h
      simp only [Option.some.injEq] at h
      subst h
      exact findRow_key N k y hN
    | none =>
      rw [hE, hN] at h
      simp at h

theorem rowFor_isSome (E N : List Row) (k : String) (hk : k ∈ unionKeys E N) :
    (rowFor E N k).isSome = true := by
  unfold rowFor
  cases hE : findRow E k with
  | some x => cases findRow N k <;> rfl
  | none =>
    cases hN : findRow N k with
    | some y => rfl
    | none =>
      exfalso
      rcases (mem_unionKeys E N k).mp hk with h | h
      · have := (findRow_isSome_iff E k).mpr h
        rw [hE] at this
        simp at this
      · have := (findRow_isSome_iff N k).mpr h
        rw [hN] at this
        simp at this

/-- Looking up a key in the merged frame returns exactly the merged row for
that key, provided the row-producing function is key-preserving and total on
the key list. -/
theorem findRow_filterMap (g : String → Option Row) (ks : List String)
    (hkey : ∀ k r, g k = some r → r.park_place_id = k)
    (hsome : ∀ k ∈ ks, (g k).isSome = true)
    (pid : String) (hpid : pid ∈ ks) :
    findRow (ks.filterMap g) pid = g pid := by
  induction ks with
  | nil => cases hpid
  | cons k rest ih =>
    have hks := hsome k (by simp)
    cases hgk : g k with
    | none => rw [hgk] at hks; simp at hks
    | some r =>
      have hrk := hkey k r hgk
      rw [List.filterMap_cons_some hgk]
      by_cases hpk : pid = k
      · subst hpk
        unfold findRow
        rw [List.find?_cons_of_pos _ (by simp [hrk]), hgk]
      · unfold findRow
        rw [List.find?_cons_of_neg _ (by simp [hrk, Ne.symm hpk])]
        exact ih (fun k' hk' => hsome k' (by simp [hk']))
          (by rcases List.mem_cons.mp hpid with h | h
              · exact absurd h hpk
              · exact h)

theorem rowKeys_filterMap (g : String → Option Row) (ks : List String)
    (h : ∀ k ∈ ks, ∃ r, g k = some r ∧ r.park_place_id = k) :
    rowKeys (ks.filterMap g) = ks := by
  induction ks with
  | nil => rfl
  | cons k rest ih =>
    rcases h k (by simp) with ⟨r, hgk, hrk⟩
    rw [List.filterMap_cons_some hgk]
    unfold rowKeys
    simp only [List.map_cons]
    rw [hrk]
    exact congrArg (k :: ·) (ih (fun k' hk' => h k' (by simp [hk'])))

/-- C3: merging the same new-row batch twice produces the same dataset as
merging it once.  The `Nodup` hypotheses restrict to frames with unique
`park_place_id` labels (pandas raises on duplicate index labels), and the
empty key is excluded from the existing frame (an existing-only row with an
empty key has its key rewritten to `"nan"` by the mask/astype step, outside
the data model's opaque non-empty identifiers). -/
theorem merge_idempotent (E N : List Row)
    (hEnd : (rowKeys E).Nodup) (hNnd : (rowKeys N).Nodup) (hne : "" ∉ rowKeys E) :
    merge_preserving_notes (merge_preserving_notes E N) N = merge_preserving_notes E N := by
  by_cases hN : N.isEmpty
  · simp [merge_preserving_notes, hN]
  · have hmerge : merge_preserving_notes E N = (unionKeys E N).filterMap (rowFor E N) := by
      simp [merge_preserving_notes, hN]
    set M := (unionKeys E N).filterMap (rowFor E N) with hM
    have hexists : ∀ k ∈ unionKeys E N, ∃ r, rowFor E N k = some r ∧ r.park_place_id = k := by
      intro k hk
      have hs := rowFor_isSome E N k hk
      cases hg : rowFor E N k with
      | none => rw [hg] at hs; simp at hs
      | some r => exact ⟨r, rfl, rowFor_key E N hne k r hg⟩
    have hkeysM : rowKeys M = unionKeys E N := rowKeys_filterMap _ _ hexists
    have hUM : unionKeys M N = rowKeys M := by
      unfold unionKeys
      have hnil : (rowKeys N).filter (fun k => decide (k ∉ rowKeys M)) = [] := by
        rw [List.filter_eq_nil_iff]
        intro k hk
        simp only [decide_eq_true_eq, Decidable.not_not]
        rw [hkeysM]
        exact (mem_unionKeys E N k).mpr (Or.inr hk)
      rw [hnil, List.append_nil]
    have hfind : ∀ k ∈ unionKeys E N, findRow M k = rowFor E N k := by
      intro k hk
      exact findRow_filterMap (rowFor E N) (unionKeys E N)
        (rowFor_key E N hne) (fun k' hk' => rowFor_isSome E N k' hk') k hk
    have hstep : ∀ k ∈ rowKeys M, rowFor M N k = rowFor E N k := by
      intro k hk
      rw [hkeysM] at hk
      have hMk := hfind k hk
      cases hE : findRow E k with
      | some x =>
        cases hNk : findRow N k with
        | some y =>
          have h1 : rowFor E N k = some (mergeBoth x y) := by
            unfold rowFor; rw [hE, hNk]
          have h2 : rowFor M N k = some (mergeBoth (mergeBoth x y) y) := by
            unfold rowFor; rw [hMk, h1, hNk]
          rw [h2, h1, mergeBoth_mergeBoth]
        | none =>
          have h1 : rowFor E N k = some (exOnly x) := by
            unfold rowFor; rw [hE, hNk]
          have h2 : rowFor M N k = some (exOnly (exOnly x)) := by
            unfold rowFor; rw [hMk, h1, hNk]
          rw [h2, h1, exOnly_exOnly]
      | none =>
        cases hNk : findRow N k with
        | some y =>
          have h1 : rowFor E N k = some y := by
            unfold rowFor; rw [hE, hNk]
          have h2 : rowFor M N k = some (mergeBoth y y) := by
            unfold rowFor; rw [hMk, h1, hNk]
          rw [h2, h1, mergeBoth_self]
        | none =>
          exfalso
          rcases hexists k hk with ⟨r, hr, _⟩
          unfold rowFor at hr
          rw [hE, hNk] at hr
          simp at hr
    calc merge_preserving_notes (merge_preserving_notes E N) N
        = (unionKeys M N).filterMap (rowFor M N) := by
          rw [hmerge]
          simp [merge_preserving_notes, hN]
      _ = (rowKeys M).filterMap (rowFor M N) := by rw [hUM]
      _ = (rowKeys M).filterMap (rowFor E N) := List.filterMap_congr hstep
      _ = (unionKeys E N).filterMap (rowFor E N) := by rw [hkeysM]
      _ = merge_preserving_notes E N := hmerge.symm

/-- C2: merging a new-row batch containing the same `place_id` never
overwrites any annotation field of an existing row — the merged row keeps
all seven annotation values of the existing row verbatim. -/
theorem merge_preserves_annotations (E N : List Row) (pid : String) (x y : Row)
    (hEnd : (rowKeys E).Nodup) (hNnd : (rowKeys N).Nodup) (hne : "" ∉ rowKeys E)
    (hx : findRow E pid = some x) (hy : findRow N pid = some y) :
    ∃ r, findRow (merge_preserving_notes E N) pid = some r ∧
      r.notes = x.notes ∧ r.call_status = x.call_status ∧ r.outcome = x.outcome ∧
      r.follow_up_date = x.follow_up_date ∧ r.owner_name = x.owner_name ∧
      r.owner_phone = x.owner_phone ∧ r.owner_email = x.owner_email := by
  have hNne : ¬ N.isEmpty = true := by
    cases N with
    | nil => simp [findRow] at hy
    | cons a t => simp
  have hmerge : merge_preserving_notes E N = (unionKeys E N).filterMap (rowFor E N) := by
    simp [merge_preserving_notes, hNne]
  have hpidE : pid ∈ rowKeys E := (findRow_isSome_iff E pid).mp (by rw [hx]; rfl)
  have hpidU : pid ∈ unionKeys E N := (mem_unionKeys E N pid).mpr (Or.inl hpidE)
  have hfind : findRow (merge_preserving_notes E N) pid = rowFor E N pid := by
    rw [hmerge]
    exact findRow_filterMap (rowFor E N) (unionKeys E N) (rowFor_key E N hne)
      (fun k hk => rowFor_isSome E N k hk) pid hpidU
  have hfr : rowFor E N pid = some (mergeBoth x y) := by
    unfold rowFor; rw [hx, hy]
  exact ⟨mergeBoth x y, by rw [hfind, hfr], rfl, rfl, rfl, rfl, rfl, rfl, rfl⟩

/-- An existing DailyRow with a non-empty annotation (`notes`). -/
def sample_existing_row : Row :=
  ⟨"P1", "2024-01-01", "Sunny RV Park", "555-0100", "http://sunny.example",
   "1 Road", "Boise", "ID", "83701", "", "", "", "Google Places", "False", "",
   "120", "called, no answer", "", "", ""⟩

/-- A freshly generated candidate row with the same `place_id` and empty
annotations. -/
def sample_new_row : Row :=
  ⟨"P1", "2024-02-02", "Sunny RV Park", "555-0199", "http://sunny.example",
   "1 Road", "Boise", "ID", "83701", "", "", "", "Google Places", "False", "",
   "", "", "", "", ""⟩

/-- Witness for C2: the concrete merge of the spec's example keeps
`notes = "called, no answer"`. -/
theorem merge_preserves_annotations_witness :
    (∃ r, findRow (merge_preserving_notes [sample_existing_row] [sample_new_row]) "P1" = some r ∧
        r.notes = sample_existing_row.notes ∧
        r.call_status = sample_existing_row.call_status ∧
        r.outcome = sample_existing_row.outcome ∧
        r.follow_up_date = sample_existing_row.follow_up_date ∧
        r.owner_name = sample_existing_row.owner_name ∧
        r.owner_phone = sample_existing_row.owner_phone ∧
        r.owner_email = sample_existing_row.owner_email) ∧
      sample_existing_row.notes = "called, no answer" :=
  ⟨merge_preserves_annotations [sample_existing_row] [sample_new_row] "P1"
      sample_existing_row sample_new_row (by decide) (by decide) (by decide)
      (by decide) (by decide), rfl⟩

/-- Witness for C3 at a concrete input. -/
theorem merge_idempotent_witness :
    merge_preserving_notes
        (merge_preserving_notes [sample_existing_row] [sample_new_row]) [sample_new_row] =
      merge_preserving_notes [sample_existing_row] [sample_new_row] :=
  merge_idempotent [sample_existing_row] [sample_new_row] (by decide) (by decide) (by decide)

/-- One row of the history ledger (`HISTORY_CSV` columns, `core.py`
lines 181–184).  All values are strings (`pd.read_csv(..., dtype=str)`). -/
structure HistRec where
  park_place_id : String
  park_name : String
  website : String
  phone : String
  address : String
  city : String
  state : String
  zip : String
  first_seen : String
  last_suggested_on : String
  times_suggested : String
  ever_called : String
  ever_contacted : String
  pad_count_last_known : String
deriving DecidableEq, Repr

/-- Decimal-numeral parser standing in for Python's `int(...)` on the stored
counter strings (written out structurally so that it evaluates in the
kernel).  Python raises on a non-numeral; the embedding returns `none` and
the theorems hypothesize a successful parse. -/
def parseNat (s : String) : Option Nat :=
  let cs := s.toList
  if cs.isEmpty then none
  else if cs.all Char.isDigit then
    some (cs.foldl (fun n c => n * 10 + (c.toNat - 48)) 0)
  else none

/-- The `times_suggested` bump of `append_history_entry`:
`prev = history_df.at[idx, "times_suggested"] or "0"` (empty is treated as
`"0"`) then `str(int(prev) + 1)`. -/
def bump_times (prev : String) : String :=
  let p := if prev = "" then "0" else prev
  toString ((parseNat p).getD 0 + 1)

/-- The seen-branch update of `append_history_entry` (`core.py`
lines 300–306): `last_suggested_on` is overwritten with the entry's value
unconditionally, `times_suggested` is bumped, and `pad_count_last_known` is
overwritten exactly when the entry carries a non-empty (truthy) value. -/
def update_seen (entry h : HistRec) : HistRec :=
  { h with
    last_suggested_on := entry.last_suggested_on
    times_suggested := bump_times h.times_suggested
    pad_count_last_known :=
      if entry.pad_count_last_known ≠ "" then entry.pad_count_last_known
      else h.pad_count_last_known }

/-- The seen branch updates the row at the FIRST index whose
`park_place_id` matches (`history_df.index[...][0]`). -/
def updateFirstHist : List HistRec → HistRec → List HistRec
  | [], _ => []
  | h :: t, e =>
    if h.park_place_id = e.park_place_id then update_seen e h :: t
    else h :: updateFirstHist t e

/-- The `park_place_id` column of the history frame. -/
def histKeys (l : List HistRec) : List String := l.map HistRec.park_place_id

/-- `core.py` `append_history_entry` (lines 297–308): update in place when
the `place_id` is already present, otherwise append the entry
(`pd.concat`). -/
def append_history_entry (hist : List HistRec) (entry : HistRec) : List HistRec :=
  if entry.park_place_id ∈ histKeys hist then updateFirstHist hist entry
  else hist ++ [entry]

/-- A previously qualifying history record: suggested twice, last suggested
on 2024-01-01, last known pad count 50. -/
def sample_hist_row : HistRec :=
  ⟨"H1", "Sunny RV Park", "http://sunny.example", "555-0100", "1 Road",
   "Boise", "ID", "83701", "2023-12-01", "2024-01-01", "2", "", "", "50"⟩

/-- The ledger entry generated by a NON-qualifying re-evaluation that did
find a pad count: `generate_daily` builds it with
`last_suggested_on = ""` and `times_suggested = "0"` (not qualifying) but
`pad_count_last_known = "100"` (pad count known). -/
def sample_hist_entry : HistRec :=
  ⟨"H1", "Sunny RV Park", "http://sunny.example", "555-0100", "1 Road",
   "Boise", "ID", "83701", "2024-02-02", "", "0", "", "", "100"⟩

/-- C7 counterexample: upserting an already-seen `place_id` from a
non-qualifying run refreshes BOTH `last_suggested_on` (cleared to `""`) and
`pad_count_last_known` (overwritten with `"100"`), although the claim says
both remain unchanged unless the run produced a qualifying result with a
known pad count. -/
theorem history_refresh_counterexample :
    append_history_entry [sample_hist_row] sample_hist_entry =
      [{ sample_hist_row with
          last_suggested_on := ""
          times_suggested := "3"
          pad_count_last_known := "100" }] ∧
    sample_hist_row.last_suggested_on = "2024-01-01" ∧
    sample_hist_row.pad_count_last_known = "50" ∧
    sample_hist_entry.last_suggested_on = "" :=
  ⟨by decide, rfl, rfl, rfl⟩

/-- C7 amended: on an upsert of an already-seen `place_id`, the first
matching record is replaced as follows — `times_suggested` increments by
exactly one (an empty stored counter counts as zero), `last_suggested_on` is
ALWAYS overwritten with the entry's value (today's date when the run
qualified, the empty string otherwise), and `pad_count_last_known` is
refreshed exactly when the entry carries a non-empty pad count (whether or
not the run qualified); every other field and every other record is
unchanged. -/
theorem append_history_seen_update (pre post : List HistRec) (h e : HistRec) (k : Nat)
    (hpid : h.park_place_id = e.park_place_id)
    (hpre : e.park_place_id ∉ histKeys pre)
    (hk : parseNat (if h.times_suggested = "" then "0" else h.times_suggested) = some k) :
    append_history_entry (pre ++ h :: post) e =
      pre ++
        { h with
          last_suggested_on := e.last_suggested_on
          times_suggested := toString (k + 1)
          pad_count_last_known :=
            if e.pad_count_last_known ≠ "" then e.pad_count_last_known
            else h.pad_count_last_known } :: post := by
  have hmem : e.park_place_id ∈ histKeys (pre ++ h :: post) := by
    unfold histKeys
    rw [List.map_append, List.mem_append]
    exact Or.inr (by simp [hpid])
  unfold append_history_entry
  rw [if_pos hmem]
  have hupd : update_seen e h =
      { h with
        last_suggested_on := e.last_suggested_on
        times_suggested := toString (k + 1)
        pad_count_last_known :=
          if e.pad_count_last_known ≠ "" then e.pad_count_last_known
          else h.pad_count_last_known } := by
    simp only [update_seen, bump_times]
    rw [hk]
    rfl
  clear hmem
  induction pre with
  | nil =>
    simp only [List.nil_append, updateFirstHist, if_pos hpid, hupd]
  | cons a t ih =>
    have ha : a.park_place_id ≠ e.park_place_id := by
      intro hcontr
      exact hpre (by simp [histKeys, hcontr])
    have hpre' : e.park_place_id ∉ histKeys t := by
      intro hmem
      apply hpre
      simp only [histKeys, List.map_cons, List.mem_cons]
      exact Or.inr (by simpa [histKeys] using hmem)
    simp only [List.cons_append, updateFirstHist, if_neg ha]
    exact congrArg (a :: ·) (ih hpre')

/-- Witness for C7's amended theorem at a concrete input: `times_suggested`
goes from `"2"` to `"3"`, `last_suggested_on` is overwritten with `""`, and
`pad_count_last_known` with `"100"`. -/
theorem append_history_seen_update_witness :
    append_history_entry [sample_hist_row] sample_hist_entry =
      [{ sample_hist_row with
          last_suggested_on := sample_hist_entry.last_suggested_on
          times_suggested := toString (2 + 1)
          pad_count_last_known :=
            if sample_hist_entry.pad_count_last_known ≠ "" then
              sample_hist_entry.pad_count_last_known
            else sample_hist_row.pad_count_last_known }] :=
  append_history_seen_update [] [] sample_hist_row sample_hist_entry 2
    (by decide) (by decide) (by decide)

/-- One raw search hit as returned by the text-search API: `place_id`
(`""` models a missing id, Python's falsy `r.get("place_id")`), display
name, and place types. -/
structure RawHit where
  place_id : String
  name : String
  types : List String
deriving DecidableEq, Repr

/-- Substring test on character lists (Python's `k in nm`). -/
def listContainsSub (pat : List Char) : List Char → Bool
  | [] => pat.isEmpty
  | c :: rest => pat.isPrefixOf (c :: rest) || listContainsSub pat rest

/-- Python's `pat in s` substring containment. -/
def strContains (s pat : String) : Bool := listContainsSub pat.toList s.toList

/-- `web/app.py` `ALLOW_KEYWORDS` (lines 276–279). -/
def ALLOW_KEYWORDS : List String :=
  ["rv", "rv park", "rv resort", "motorhome", "trailer park",
   "mobile home", "mobilehome", "manufactured home"]

/-- `web/app.py` `REJECT_KEYWORDS` (lines 280–286). -/
def REJECT_KEYWORDS : List String :=
  ["city park", "state park", "national park", "county park",
   "dog park", "water park", "theme park", "amusement park",
   "playground", "ball park", "sports park",
   "storage", "repair", "sales", "dealers", "dealer", "parts",
   "boat", "marina"]

/-- `web/app.py` `_looks_like_rv_or_mhp` (lines 287–298): the strict category
filter on a hit's name and place types. -/
def looks_like_rv_or_mhp (name : String) (types : List String) : Bool :=
  let nm := name.toLower
  if types.contains "rv_park" then true
  else if (types.contains "park" || types.contains "tourist_attraction") &&
      !(ALLOW_KEYWORDS.any (fun k => strContains nm k)) then false
  else if types.contains "campground" || types.contains "lodging" then
    ALLOW_KEYWORDS.any (fun k => strContains nm k)
  else if ALLOW_KEYWORDS.any (fun k => strContains nm k) then
    !(REJECT_KEYWORDS.any (fun k => strContains nm k))
  else false

/-- The per-page candidate-collection loop of `_generate_for_user`
(`web/app.py` lines 430–442): a hit is submitted to the Enrichment Worker
Pool (the `eval_place` futures) only if it survives this gate — a present
`place_id` not in `seen` and not in the caller's `already`-known id set, and
a name/types combination passing the category filter.  Accepted ids are
added to `seen`.  The `len(found) >= requested` break is omitted: `found`
does not change while this loop runs, so it either empties the page upfront
or lets the gate run unchanged. -/
def dedup_gate (already : List String) :
    List RawHit → List String → List RawHit × List String
  | [], seen => ([], seen)
  | r :: rest, seen =>
    if r.place_id = "" || seen.contains r.place_id || already.contains r.place_id then
      dedup_gate already rest seen
    else if !looks_like_rv_or_mhp r.name r.types then
      dedup_gate already rest seen
    else
      let out := dedup_gate already rest (r.place_id :: seen)
      (r :: out.1, out.2)

/-- C8: no hit whose `place_id` is already known to the caller (or missing,
or already collected this run) ever reaches the Enrichment Worker Pool — the
gate's candidate output never contains it, so no detail fetch and no
classification is performed for it. -/
theorem dedup_gate_excludes_known (already : List String) (results : List RawHit)
    (seen : List String) (r : RawHit)
    (hr : r ∈ (dedup_gate already results seen).1) :
    r.place_id ∉ already ∧ r.place_id ∉ seen ∧ r.place_id ≠ "" := by
  induction results generalizing seen with
  | nil => simp [dedup_gate] at hr
  | cons a rest ih =>
    by_cases h1 : (a.place_id = "" || seen.contains a.place_id ||
        already.contains a.place_id) = true
    · rw [show dedup_gate already (a :: rest) seen = dedup_gate already rest seen from by
        simp only [dedup_gate]; rw [if_pos h1]] at hr
      exact ih seen hr
    · by_cases h2 : (!looks_like_rv_or_mhp a.name a.types) = true
      · rw [show dedup_gate already (a :: rest) seen = dedup_gate already rest seen from by
          simp only [dedup_gate]; rw [if_neg h1, if_pos h2]] at hr
        exact ih seen hr
      · rw [show dedup_gate already (a :: rest) seen =
            (a :: (dedup_gate already rest (a.place_id :: seen)).1,
             (dedup_gate already rest (a.place_id :: seen)).2) from by
          simp only [dedup_gate]; rw [if_neg h1, if_neg h2]] at hr
        simp only [Bool.or_eq_true, decide_eq_true_eq, List.elem_eq_mem,
          not_or] at h1
        rcases List.mem_cons.mp hr with hra | hrr
        · subst hra
          exact ⟨h1.2, h1.1.2, h1.1.1⟩
        · have := ih (a.place_id :: seen) hrr
          exact ⟨this.1, fun hmem => this.2.1 (by simp [hmem]), this.2.2⟩

/-- A raw hit that passes the category filter outright (`rv_park` type). -/
def sample_hit : RawHit := ⟨"B", "Sunny RV Park", ["rv_park"]⟩

/-- Witness for C8 at a concrete input: with `"A"` already known, the gate
admits only the new hit `"B"`, and the theorem yields that an admitted hit's
id is not already known. -/
theorem dedup_gate_excludes_known_witness :
    sample_hit.place_id ∉ ["A"] ∧ sample_hit.place_id ∉ ([] : List String) ∧
      sample_hit.place_id ≠ "" :=
  dedup_gate_excludes_known ["A"] [⟨"A", "Old Park", ["rv_park"]⟩, sample_hit] []
    sample_hit (by decide)

/-- The outcome of one text-search HTTP call, as observed by
`google_text_search`: either the transport raised after the session's retry
policy (`resp.raise_for_status()` or a `requests` exception), or a JSON body
with a `status` field, a result list and an optional `next_page_token`. -/
inductive SearchOutcome where
  | httpError (msg : String)
  | apiStatus (status : String) (results : List RawHit) (nextToken : Option String)

/-- `core.py` `google_text_search` (lines 200–223): an HTTP-level failure
propagates (`raise_for_status`), and a status other than `OK` or
`ZERO_RESULTS` raises `SystemExit` with the error message; otherwise the
payload is returned. -/
def google_text_search : SearchOutcome → Except String (List RawHit × Option String)
  | SearchOutcome.httpError m => Except.error m
  | SearchOutcome.apiStatus s res tok =>
    if s = "OK" || s = "ZERO_RESULTS" then Except.ok (res, tok)
    else Except.error ("Google Text Search error: " ++ s)

/-- The page loop of one query in `core.py` `generate_daily` (lines 417–432):
each element is the outcome of one page fetch; the loop continues to the next
page only when a `next_page_token` was returned.  `generate_daily` wraps the
call in NO try/except, so an error propagates out of the whole run.  The
enrichment of each page's results and the target/checked early exits are
orthogonal to error propagation and are elided here; the collected raw
results stand for the work the run would perform. -/
def core_pages : List SearchOutcome → Except String (List RawHit)
  | [] => Except.ok []
  | o :: rest =>
    match google_text_search o with
    | Except.error m => Except.error m
    | Except.ok (res, tok) =>
      match tok with
      | none => Except.ok res
      | some _ =>
        match core_pages rest with
        | Except.error m => Except.error m
        | Except.ok more => Except.ok (res ++ more)

/-- The query loop of `core.py` `generate_daily` (lines 411–484): one page
list per phrase in `TARGET_QUERIES` order; an error in any page fetch aborts
the remaining phrases along with the whole run. -/
def core_planner : List (List SearchOutcome) → Except String (List RawHit)
  | [] => Except.ok []
  | q :: qs =>
    match core_pages q with
    | Except.error m => Except.error m
    | Except.ok r =>
      match core_planner qs with
      | Except.error m => Except.error m
      | Except.ok rs => Except.ok (r ++ rs)

/-- The page loop of one query in `web/app.py` `_generate_for_user`
(lines 410–425): the search call is wrapped in try/except — on failure the
planner emits `"[error] google_text_search failed: ..."` and breaks to the
next phrase.  Returns the hits gathered and the error log lines. -/
def web_pages : List SearchOutcome → List RawHit × List String
  | [] => ([], [])
  | o :: rest =>
    match google_text_search o with
    | Except.error m => ([], ["[error] google_text_search failed: " ++ m])
    | Except.ok (res, tok) =>
      match tok with
      | none => (res, [])
      | some _ => (res ++ (web_pages rest).1, (web_pages rest).2)

/-- The phrase/radius loop of `_generate_for_user`: every phrase's page list
is processed, whatever happened to the previous phrases, and the run always
returns a (possibly empty) hit list plus the accumulated log. -/
def web_planner : List (List SearchOutcome) → List RawHit × List String
  | [] => ([], [])
  | q :: qs =>
    ((web_pages q).1 ++ (web_planner qs).1, (web_pages q).2 ++ (web_planner qs).2)

/-- C9 counterexample: a single failed search call DOES abort the whole core
`generate_daily` run — the error propagates and the results of the remaining
phrase (here one `OK` page with a hit) are lost, while the web planner on
the same outcomes logs the failure and still returns that hit.  A non-OK
API status likewise raises (`SystemExit`). -/
theorem core_planner_aborts_counterexample :
    core_planner [[SearchOutcome.httpError "boom"],
        [SearchOutcome.apiStatus "OK" [sample_hit] none]] = Except.error "boom" ∧
    (web_planner [[SearchOutcome.httpError "boom"],
        [SearchOutcome.apiStatus "OK" [sample_hit] none]]).1 = [sample_hit] ∧
    google_text_search (SearchOutcome.apiStatus "REQUEST_DENIED" [] none) =
      Except.error ("Google Text Search error: " ++ "REQUEST_DENIED") :=
  ⟨rfl, by decide, rfl⟩

/-- C9 amended: the WEB planner never aborts on a failed search call — the
failing phrase contributes a logged error line and no hits, its remaining
pages are skipped, and every later phrase is still processed, so the run
completes with a (possibly empty) result set.  (The core `generate_daily`
planner, by contrast, aborts — see the counterexample.) -/
theorem web_planner_advances_on_failure (m : String) (rest : List SearchOutcome)
    (qs : List (List SearchOutcome)) :
    web_planner ((SearchOutcome.httpError m :: rest) :: qs) =
      ((web_planner qs).1,
        ("[error] google_text_search failed: " ++ m) :: (web_planner qs).2) := by
  simp [web_planner, web_pages, google_text_search]

end RVProspector
